import Mathlib

/-!
Shallow embedding of the circuit-building core of the simple bandwidth
scanner (`sbws`): `sbws/lib/circuitbuilder.py`, `sbws/lib/relaylist.py`
and `sbws/lib/destination.py`.

Conventions of the embedding:
* Python exceptions become `Except PyErr` results; a code path that can
  raise is a `.error`, a path that swallows an exception stays `.ok`.
* The external `stem` controller and other collaborators are modelled as
  records of functions (oracles); randomness is modelled as an explicit
  stream of choice indices.
* Python `set` state (`built_circuits`) is a `Finset String`.
-/

namespace Sbws

/-- Python-level exceptions that the embedded code can raise.  `typeError`,
`indexError`, `attributeError` and `assertionError` are the interpreter
faults of the corresponding Python slips; `pathLengthException` is the
repository's own exception class. -/
inductive PyErr
  | pathLengthException
  | typeError
  | indexError
  | attributeError
  | assertionError
  deriving DecidableEq, Repr

/-- The four transient protocol faults caught by the circuit build retry
loop: `InvalidRequest`, `CircuitExtensionFailed`, `ProtocolError`,
`Timeout` (stem exceptions, `circuitbuilder.py` lines 90-91). -/
inductive TransientFault
  | invalidRequest
  | circuitExtensionFailed
  | protocolError
  | timeout
  deriving DecidableEq, Repr

/-- Relay capability flags (`stem.Flag`); only the ones the code consults. -/
inductive Flag
  | Fast
  | Exit
  | Guard
  | HSDir
  | Authority
  deriving DecidableEq, Repr

/-- An exit policy is opaque to the code: the only operation used is
`can_exit_to(address=..., port=...)`, which can also raise a `KeyError`
(modelled as the `.error` case).  The source calls it with no address
argument, i.e. `address = none` here. -/
structure ExitPolicy where
  canExitTo : Option String → Nat → Except Unit Bool

/-- A relay record as used by the code: fingerprint, nickname, flags,
bandwidth and an optional already-loaded exit policy
(`relaylist.py` / network status entries). -/
structure Relay where
  fingerprint : String
  nickname : String
  address : String
  flags : List Flag
  bandwidth : Nat
  exit_policy : Option ExitPolicy

/-- `valid_circuit_length` (`circuitbuilder.py` lines 20-24), applied to the
length of the path (the int branch and the list branch coincide on the
length): `path > 0 and path <= 8`. -/
def valid_circuit_length (n : Nat) : Bool :=
  decide (0 < n) && decide (n ≤ 8)

/-- The stem controller as seen by `CircuitBuilder`:
* `ok` — `stem_utils.is_controller_okay`;
* `new_circuit i path` — outcome of the i-th `new_circuit` call of the
  current invocation (circuit id, or one of the four transient faults);
* `circuits` — ids for which `get_circuit(id, default=None)` is non-None;
* `close_result id` — outcome of `close_circuit(id)`: `.error` is the
  `InvalidArguments` ("already gone") fault. -/
structure Controller where
  ok : Bool
  new_circuit : Nat → List String → Except TransientFault String
  circuits : List String
  close_result : String → Except Unit Unit

/-- The retry loop of `CircuitBuilder._build_circuit_impl`
(`for _ in range(0, 3)`): `i` is the index of the next `new_circuit` call,
the fuel argument is the number of attempts remaining.  Returns the
circuit id (or `none` after exhaustion) together with the number of
`new_circuit` calls issued. -/
def impl_attempts (c : Controller) (path : List String) : Nat → Nat → Option String × Nat
  | _, 0 => (none, 0)
  | i, n + 1 =>
    match c.new_circuit i path with
    | .ok circ_id => (some circ_id, 1)
    | .error _ =>
      let r := impl_attempts c path (i + 1) n
      (r.1, r.2 + 1)

/-- `CircuitBuilder._build_circuit_impl` (`circuitbuilder.py` lines 78-96).
Raises `PathLengthException` on an invalid length, asserts the controller
is okay, then tries up to 3 `new_circuit` calls, catching the four
transient faults and returning `none` on exhaustion.  The state
`built_circuits` is threaded through unchanged: the source never adds the
new id to `self.built_circuits`.  The third component counts the
`new_circuit` calls issued. -/
def build_circuit_impl (c : Controller) (path : List String) (built_circuits : Finset String) :
    Except PyErr (Option String × Finset String × Nat) :=
  if ¬ valid_circuit_length path.length then .error .pathLengthException
  else if ¬ c.ok then .error .assertionError
  else
    let r := impl_attempts c path 0 3
    .ok (r.1, built_circuits, r.2)

/-- `CircuitBuilder.close_circuit` (`circuitbuilder.py` lines 67-76).
If the controller is not okay: return.  If `get_circuit` finds the
circuit: call `close_circuit` on the controller, swallowing
`InvalidArguments`, then `built_circuits.discard(circ_id)`.  Otherwise
nothing happens (the `discard` is inside the `if`). -/
def close_circuit (c : Controller) (built_circuits : Finset String) (circ_id : String) :
    Finset String :=
  if ¬ c.ok then built_circuits
  else if circ_id ∈ c.circuits then
    match c.close_result circ_id with
    | .ok _ => built_circuits.erase circ_id
    | .error _ => built_circuits.erase circ_id
  else built_circuits

/-- A path spec as passed to `GapsCircuitBuilder.build_circuit`: each slot is
either a pinned fingerprint-or-nickname string or a falsey value (`none`)
to be filled with a random relay. -/
abbrev PathSpec := List (Option String)

/-- Environment of a `GapsCircuitBuilder`:
* `resolveRelay` — `stem_utils.fp_or_nick_to_relay` (modelled from the
  spec: resolves a pinned fingerprint-or-nickname to a concrete relay
  descriptor, or fails; the helper lives outside the repository slice);
* `ctrl` — the stem controller;
* `relays` — the current `RelayList` snapshot (`self.relays`);
* `rngS` — the stream of indices produced by `rng.choice` over the
  fingerprint population (the i-th draw picks index `rngS i` modulo the
  population size). -/
structure GapsEnv where
  resolveRelay : String → Option Relay
  ctrl : Controller
  relays : List Relay
  rngS : Nat → Nat

/-- `GapsCircuitBuilder._normalize_path` (`circuitbuilder.py` lines
120-133): falsey slots become `none`, pinned slots are resolved to a relay;
any resolution failure makes the whole normalization return `none`. -/
def normalize_path (env : GapsEnv) (path : PathSpec) : Option (List (Option Relay)) :=
  path.mapM fun slot =>
    match slot with
    | none => some none
    | some fp =>
      match env.resolveRelay fp with
      | none => none
      | some relay => some (some relay)

/-- The rejection-sampling loop of `_random_sample_relays`
(`circuitbuilder.py` lines 143-149): repeatedly draw a fingerprint from
`all_fps`, skip it if it is in `black`, otherwise append it to both the
chosen list and the blacklist, until `number` are chosen.  The loop of the
source terminates only with probability 1, so the embedding carries
explicit fuel; `none` means the fuel ran out (an artifact of the
embedding, not an outcome of the source). -/
def sample_loop (rngS : Nat → Nat) (all_fps : List String) (number : Nat) :
    Nat → Nat → List String → List String → Option (List String)
  | fuel, i, black, chosen =>
    if number ≤ chosen.length then some chosen
    else
      match fuel with
      | 0 => none
      | fuel' + 1 =>
        let choice := all_fps.getD (rngS i % all_fps.length) ""
        if choice ∈ black then sample_loop rngS all_fps number fuel' (i + 1) black chosen
        else
          sample_loop rngS all_fps number fuel' (i + 1) (black ++ [choice]) (chosen ++ [choice])

/-- `GapsCircuitBuilder._random_sample_relays` (`circuitbuilder.py` lines
135-151).  Result: `none` = sampling fuel exhausted (embedding artifact);
`some none` = the source's `None` sentinel ("too many blacklisted",
triggered by `len(black_fps) + number > len(all_fps)`); `some (some l)` =
the list of resolved relays (each resolved through
`fp_or_nick_to_relay`, which can itself fail per element, hence
`Option Relay` elements). -/
def random_sample_relays (env : GapsEnv) (fuel : Nat) (number : Nat)
    (blacklist : List Relay) : Option (Option (List (Option Relay))) :=
  let all_fps := env.relays.map (fun r => r.fingerprint)
  let black_fps := blacklist.map (fun r => r.fingerprint)
  if all_fps.length < black_fps.length + number then some none
  else
    match sample_loop env.rngS all_fps number fuel 0 black_fps [] with
    | none => none
    | some chosen_fps => some (some (chosen_fps.map env.resolveRelay))

/-- The final list comprehension of `GapsCircuitBuilder.build_circuit`
(`circuitbuilder.py` lines 174-175):
`[r.fingerprint if r else insert_relays.pop().fingerprint for r in path]`.
Slots are consumed left to right; each empty slot pops the LAST remaining
element of `insert_relays`.  `pop` on an empty list is an `IndexError`;
`.fingerprint` on a `None` element (a failed resolution) is an
`AttributeError`. -/
def fill_path : List (Option Relay) → List (Option Relay) → Except PyErr (List String)
  | [], _ => .ok []
  | some r :: rest, ins => (fill_path rest ins).map (fun l => r.fingerprint :: l)
  | none :: rest, ins =>
    match ins.getLast? with
    | none => .error .indexError
    | some none => .error .attributeError
    | some (some r) => (fill_path rest ins.dropLast).map (fun l => r.fingerprint :: l)

/-- The path-resolution part of `GapsCircuitBuilder.build_circuit`
(`circuitbuilder.py` lines 153-175), up to but excluding the final call to
`_build_circuit_impl`.  Outer `none` = sampling fuel exhausted (embedding
artifact).  Inside: `.error` = a raised exception, `.ok none` = the
source's `return None` sentinel, `.ok (some fps)` = the concrete
fingerprint path handed to `_build_circuit_impl`.

Note the failure branch of the source (lines 167-172): it rebuilds `path`
as `','.join([r.nickname if r else None for r in path])` before logging;
`str.join` over a list containing `None` raises `TypeError`, so the branch
only reaches the warning and `return None` when no slot is empty. -/
def gaps_build_path (env : GapsEnv) (fuel : Nat) (path : PathSpec) :
    Option (Except PyErr (Option (List String))) :=
  if ¬ valid_circuit_length path.length then some (.error .pathLengthException)
  else
    match normalize_path env path with
    | none => some (.ok none)
    | some npath =>
      let num_missing := (npath.filter (fun r => r.isNone)).length
      match random_sample_relays env fuel num_missing (npath.filterMap (fun r => r)) with
      | none => none
      | some none =>
        if npath.any (fun r => r.isNone) then some (.error .typeError)
        else some (.ok none)
      | some (some insert_relays) =>
        if insert_relays.length ≠ num_missing then some (.error .assertionError)
        else some ((fill_path npath insert_relays).map (fun l => some l))

/-- `GapsCircuitBuilder.build_circuit` (`circuitbuilder.py` lines 153-176):
resolve and fill the path, then delegate to `_build_circuit_impl`.  A
`.ok none` from the resolution step is returned as-is (no protocol call,
`built_circuits` untouched, 0 `new_circuit` calls). -/
def gaps_build_circuit (env : GapsEnv) (fuel : Nat) (built_circuits : Finset String)
    (path : PathSpec) : Option (Except PyErr (Option String × Finset String × Nat)) :=
  match gaps_build_path env fuel path with
  | none => none
  | some (.error e) => some (.error e)
  | some (.ok none) => some (.ok (none, built_circuits, 0))
  | some (.ok (some fps)) => some (build_circuit_impl env.ctrl fps built_circuits)

/-- The controller operations used by `RelayList.exits_can_exit_to`:
`get_microdescriptor(fp)` either fails with `DescriptorUnavailable`
(`.error`) or returns a descriptor whose `exit_policy` field may be
`None`. -/
structure MdController where
  get_microdescriptor : String → Except Unit (Option ExitPolicy)

/-- Host resolution of `exits_can_exit_to` (`relaylist.py` lines 85-93): a
host that is not a literal IPv4/IPv6 address is resolved locally and the
first result is taken (`resolve(host)[0]`: `IndexError` on an empty
result), then `assert is_valid_ipv4_address(host) or
is_valid_ipv6_address(host)`.  `isIP` models the two stem validity checks
together; `res` models `sbws.globals.resolve` (modelled from the spec:
local best-effort name resolution, outside the repository slice). -/
def resolve_host (isIP : String → Bool) (res : String → List String) (host : String) :
    Except PyErr String :=
  if isIP host then .ok host
  else
    match res host with
    | [] => .error .indexError
    | h :: _ => if isIP h then .ok h else .error .assertionError

/-- Per-relay keep decision of the `exits_can_exit_to` loop
(`relaylist.py` lines 95-116): use the already-loaded policy if present,
else fetch the microdescriptor (`DescriptorUnavailable` ⇒ skip, a fetched
`None` policy ⇒ not appended); then `policy.can_exit_to(port=port)` — the
resolved host is NOT passed — with a raised `KeyError` caught and the
relay skipped. -/
def exit_keep (c : MdController) (port : Nat) (r : Relay) : Bool :=
  match (match r.exit_policy with
         | some p => Except.ok (some p)
         | none => c.get_microdescriptor r.fingerprint) with
  | .error _ => false
  | .ok none => false
  | .ok (some p) =>
    match p.canExitTo none port with
    | .ok b => b
    | .error _ => false

/-- The accumulation loop of `exits_can_exit_to` over `self.exits`
(`relaylist.py` lines 94-117), written as the source writes it: walk the
Exit-flagged relays in order and append the kept ones. -/
def exits_loop (c : MdController) (port : Nat) : List Relay → List Relay
  | [] => []
  | r :: rest =>
    if exit_keep c port r then r :: exits_loop c port rest
    else exits_loop c port rest

/-- `RelayList.exits_can_exit_to` (`relaylist.py` lines 71-117) over a
given snapshot: resolve and validate the host, then filter the
Exit-flagged relays of the snapshot through the policy check.  The
resolved host is bound but unused afterwards, exactly as in the source
(`can_exit_to` receives only the port). -/
def exits_can_exit_to (c : MdController) (isIP : String → Bool) (res : String → List String)
    (snapshot : List Relay) (host : String) (port : Nat) : Except PyErr (List Relay) := do
  let _h ← resolve_host isIP res host
  .ok (exits_loop c port (snapshot.filter (fun r => Flag.Exit ∈ r.flags)))

/-- Modelled from the spec: the behavior claimed for `exitsCanExitTo` —
"keep it iff the policy permits egress to `port` for the resolved
`host`", i.e. the same computation but with the resolved host passed to
the policy matcher.  Used only to compare the claim against the source
function `exits_can_exit_to`. -/
def exit_keep_claim (c : MdController) (host : String) (port : Nat) (r : Relay) : Bool :=
  match (match r.exit_policy with
         | some p => Except.ok (some p)
         | none => c.get_microdescriptor r.fingerprint) with
  | .error _ => false
  | .ok none => false
  | .ok (some p) =>
    match p.canExitTo (some host) port with
    | .ok b => b
    | .error _ => false

/-- Modelled from the spec: `exitsCanExitTo` as the claim states it (policy
consulted for the resolved host AND port). -/
def exits_can_exit_to_claim (c : MdController) (isIP : String → Bool)
    (res : String → List String) (snapshot : List Relay) (host : String) (port : Nat) :
    Except PyErr (List Relay) := do
  let h ← resolve_host isIP res host
  .ok ((snapshot.filter (fun r => Flag.Exit ∈ r.flags)).filter (exit_keep_claim c h port))

/-- `RelayList.REFRESH_INTERVAL` (`relaylist.py` line 19). -/
def REFRESH_INTERVAL : Nat := 300

/-- The mutable state of a `RelayList`, instrumented with a counter of
`get_network_statuses` fetches (the "counting stub" of the spec's
testable property). -/
structure RelayListState where
  relays : List Relay
  last_refresh : Nat
  fetch_count : Nat

/-- `RelayList._refresh` (`relaylist.py` lines 136-138): replace the
snapshot with a fresh fetch (`src` maps the fetch counter to the relay
records returned by `get_network_statuses`) and stamp the time. -/
def rl_refresh (src : Nat → List Relay) (now : Nat) (st : RelayListState) : RelayListState :=
  { relays := src st.fetch_count, last_refresh := now, fetch_count := st.fetch_count + 1 }

/-- The `RelayList.relays` property (`relaylist.py` lines 26-30): refresh
iff `time.time() >= self._last_refresh + REFRESH_INTERVAL`, then return
the (possibly new) snapshot together with the new state. -/
def rl_relays (src : Nat → List Relay) (now : Nat) (st : RelayListState) :
    List Relay × RelayListState :=
  if st.last_refresh + REFRESH_INTERVAL ≤ now then
    let st' := rl_refresh src now st
    (st'.relays, st')
  else (st.relays, st)

/-- The result of Python's `urlparse` as consumed by `Destination`
(modelled from the spec: URL parsing is the standard library, outside the
repository slice): scheme, netloc, path, derived hostname and optional
explicit port. -/
structure ParsedUrl where
  scheme : String
  netloc : String
  path : String
  hostname : String
  port : Option Nat
  deriving DecidableEq, Repr

/-- A constructed `Destination` (`destination.py` lines 80-91): the stored
parsed URL and the configured maximum download size. -/
structure Destination where
  url : ParsedUrl
  max_dl : Nat
  deriving DecidableEq, Repr

/-- `Destination.__init__` (`destination.py` lines 81-91): assert the
scheme is http/https and the netloc non-empty; when the URL has no path,
assert `default_path[0] == '/'` (an empty default path is an
`IndexError`) and then evaluate `parts = u[0:2] + default_path + u[2:]` —
concatenating a tuple slice with a `str`, which raises `TypeError`, so a
URL without a path never finishes construction. -/
def destination_init (u : ParsedUrl) (default_path : String) (max_dl : Nat) :
    Except PyErr Destination :=
  if ¬ (u.scheme = "http" ∨ u.scheme = "https") then .error .assertionError
  else if u.netloc = "" then .error .assertionError
  else if u.path = "" then
    if default_path.length = 0 then .error .indexError
    else if default_path.front ≠ '/' then .error .assertionError
    else .error .typeError
  else .ok { url := u, max_dl := max_dl }

/-- The `Destination.port` property (`destination.py` lines 108-120): the
URL's explicit port if present, else 80 for http and 443 for https (any
other scheme would hit the `assert None` branch). -/
def destination_port (d : Destination) : Except PyErr Nat :=
  match d.url.port with
  | some p => .ok p
  | none =>
    if d.url.scheme = "http" then .ok 80
    else if d.url.scheme = "https" then .ok 443
    else .error .assertionError

/-- Collaborators of `DestinationList._perform_usability_test`:
* `rlExits host port` — `self._rl.exits_can_exit_to(...)` (the instance
  of `exits_can_exit_to` above, abstracted to its observable result);
* `choice` — the `rng.choice` index stream over the retained exits, one
  entry per build attempt;
* `build n spec` — result of the n-th `self._cb.build_circuit(...)` call
  of the sweep (`none` = the builder's no-circuit sentinel);
* `usable d cid` — the `(is_usable, data)` pair of
  `dest.is_usable(circ_id, session, cont)`. -/
structure SweepOracle where
  rlExits : String → Nat → Except PyErr (List Relay)
  choice : Nat → Nat
  build : Nat → PathSpec → Option String
  usable : Destination → String → Bool × String

/-- Stable-enough descending sort by bandwidth, modelling
`sorted(possible_exits, key=lambda e: e.bandwidth, reverse=True)`
(`destination.py` lines 163-164); tie order among equal bandwidths is not
relied on by anything proved here. -/
def insert_bw (r : Relay) : List Relay → List Relay
  | [] => [r]
  | x :: xs => if r.bandwidth ≤ x.bandwidth then x :: insert_bw r xs else r :: x :: xs

/-- See `insert_bw`. -/
def sorted_by_bw_desc : List Relay → List Relay
  | [] => []
  | r :: rest => insert_bw r (sorted_by_bw_desc rest)

/-- The three-attempt build loop of the sweep (`destination.py` lines
167-173): each attempt picks `exit = rng.choice(exits)` — which raises
`IndexError` when `exits` is empty — then calls
`build_circuit([None, exit.fingerprint])`, stopping at the first truthy
circuit id.  `cnt` is the global attempt counter feeding both streams;
returns the circuit id (or `none`) and the advanced counter. -/
def try_build (o : SweepOracle) (exits : List Relay) : Nat → Nat → Except PyErr (Option String × Nat)
  | cnt, 0 => .ok (none, cnt)
  | cnt, n + 1 =>
    match exits with
    | [] => .error .indexError
    | e :: es =>
      let ex := (e :: es).getD (o.choice cnt % (es.length + 1)) e
      match o.build cnt [none, some ex.fingerprint] with
      | some cid => .ok (some cid, cnt + 1)
      | none => try_build o exits (cnt + 1) n

/-- The per-destination loop of `DestinationList._perform_usability_test`
(`destination.py` lines 158-188).  For each destination: compute the
candidate exits, keep the fastest `max(3, len // 10)` (the source's
`int(max(3, len(possible_exits) * 0.1))`, float rounding aside), try up
to three circuit builds, drop the destination (continue) when no circuit
was built or the usability check failed, and append the destination AND
close the circuit only in the usable branch — the source's `continue` on
a failed check skips `close_circuit`.  Accumulates `usable_dests` and the
list of circuit ids passed to `self._cb.close_circuit`. -/
def sweep_loop (o : SweepOracle) :
    List Destination → Nat → List Destination → List String →
    Except PyErr (List Destination × List String)
  | [], _, usable, closed => .ok (usable, closed)
  | d :: rest, cnt, usable, closed => do
    let port ← destination_port d
    let possible ← o.rlExits d.url.hostname port
    let num_keep := max 3 (possible.length / 10)
    let exits := (sorted_by_bw_desc possible).take num_keep
    let r ← try_build o exits cnt 3
    match r.1 with
    | none => sweep_loop o rest r.2 usable closed
    | some cid =>
      if (o.usable d cid).1 then sweep_loop o rest r.2 (usable ++ [d]) (closed ++ [cid])
      else sweep_loop o rest r.2 usable closed

/-- `DestinationList._perform_usability_test` (`destination.py` lines
151-190), reduced to its observable sweep outcome: the new
`_usable_dests` list and the circuits handed to `close_circuit`
(lock/timestamp bookkeeping omitted). -/
def perform_usability_test (o : SweepOracle) (dests : List Destination) :
    Except PyErr (List Destination × List String) :=
  sweep_loop o dests 0 [] []

/-! Concrete instances used to evaluate the embedded code at specific
inputs. -/

/-- A healthy controller whose first `new_circuit` call succeeds with
circuit id "64". -/
def ctrl_ok64 : Controller :=
  { ok := true, new_circuit := fun _ _ => .ok "64", circuits := [],
    close_result := fun _ => .ok () }

/-- A healthy controller on which every `new_circuit` call times out and
whose circuit table is empty. -/
def ctrl_fail : Controller :=
  { ok := true, new_circuit := fun _ _ => .error .timeout, circuits := [],
    close_result := fun _ => .error () }

/-- A healthy controller whose circuit table contains circuit "9" and whose
`close_circuit` raises `InvalidArguments`. -/
def ctrl_has9 : Controller :=
  { ok := true, new_circuit := fun _ _ => .error .timeout, circuits := ["9"],
    close_result := fun _ => .error () }

/-- Sample relays (no exit policies, not Exit-flagged). -/
def relayA : Relay :=
  { fingerprint := "A", nickname := "relA", address := "10.0.0.1", flags := [Flag.Fast],
    bandwidth := 100, exit_policy := none }

/-- See `relayA`. -/
def relayB : Relay :=
  { fingerprint := "B", nickname := "relB", address := "10.0.0.2", flags := [Flag.Fast],
    bandwidth := 90, exit_policy := none }

/-- See `relayA`. -/
def relayC : Relay :=
  { fingerprint := "C", nickname := "relC", address := "10.0.0.3", flags := [Flag.Fast],
    bandwidth := 80, exit_policy := none }

/-- A `GapsCircuitBuilder` environment over the three-relay snapshot, with
resolution by fingerprint-or-nickname lookup in that snapshot. -/
def gaps_env_abc : GapsEnv :=
  { resolveRelay := fun s =>
      [relayA, relayB, relayC].find? (fun r => r.fingerprint == s || r.nickname == s),
    ctrl := ctrl_fail, relays := [relayA, relayB, relayC], rngS := fun _ => 0 }

/-- A `GapsCircuitBuilder` environment over an empty relay snapshot. -/
def gaps_env_empty : GapsEnv :=
  { resolveRelay := fun _ => none, ctrl := ctrl_fail, relays := [], rngS := fun _ => 0 }

/-- An Exit-flagged relay with no loaded exit policy. -/
def exitX : Relay :=
  { fingerprint := "X", nickname := "exX", address := "10.0.0.4", flags := [Flag.Exit],
    bandwidth := 500, exit_policy := none }

/-- A policy that permits a port when queried with no address (as the
source queries it) but denies it for every concrete address. -/
def policy_port_only : ExitPolicy :=
  { canExitTo := fun a _ => .ok (a == none) }

/-- An Exit-flagged relay carrying `policy_port_only`. -/
def exitY : Relay :=
  { fingerprint := "Y", nickname := "exY", address := "10.0.0.5", flags := [Flag.Exit],
    bandwidth := 9, exit_policy := some policy_port_only }

/-- A controller with no microdescriptors available. -/
def mdc_empty : MdController :=
  { get_microdescriptor := fun _ => .error () }

/-- Literal-IP recognizer accepting exactly "1.2.3.4". -/
def isIP_lit : String → Bool := fun s => s == "1.2.3.4"

/-- A resolver returning no addresses. -/
def res_empty : String → List String := fun _ => []

/-- A destination with an explicit port (construction-complete). -/
def dest1 : Destination :=
  { url := { scheme := "https", netloc := "a.example", path := "/f",
             hostname := "a.example", port := some 443 },
    max_dl := 1 }

/-- A second destination, to observe whether a sweep continues past a
failing one. -/
def dest2 : Destination :=
  { url := { scheme := "https", netloc := "b.example", path := "/f",
             hostname := "b.example", port := some 443 },
    max_dl := 1 }

/-- Sweep collaborators: every destination has an empty candidate exit
set. -/
def o_sweep_noexits : SweepOracle :=
  { rlExits := fun _ _ => .ok [], choice := fun _ => 0,
    build := fun _ _ => some "c1", usable := fun _ _ => (true, "") }

/-- Sweep collaborators: one candidate exit, but every circuit build
returns the no-circuit sentinel. -/
def o_sweep_nobuild : SweepOracle :=
  { rlExits := fun _ _ => .ok [exitX], choice := fun _ => 0,
    build := fun _ _ => none, usable := fun _ _ => (true, "") }

/-- Sweep collaborators: one candidate exit, the first build yields circuit
"c1", and the usability check reports the destination NOT usable. -/
def o_sweep_unusable : SweepOracle :=
  { rlExits := fun _ _ => .ok [exitX], choice := fun _ => 0,
    build := fun _ _ => some "c1", usable := fun _ _ => (false, "err") }

/-- Sweep collaborators: as `o_sweep_unusable` but the usability check
reports the destination usable. -/
def o_sweep_usable : SweepOracle :=
  { rlExits := fun _ _ => .ok [exitX], choice := fun _ => 0,
    build := fun _ _ => some "c1", usable := fun _ _ => (true, "") }

/-- A parsed URL without a path component. -/
def url_nopath : ParsedUrl :=
  { scheme := "https", netloc := "example.com", path := "", hostname := "example.com",
    port := none }

/-- A parsed URL with a path but no explicit port. -/
def url_withpath : ParsedUrl :=
  { scheme := "https", netloc := "example.com", path := "/f", hostname := "example.com",
    port := none }

/-- An empty network-status source for the refresh instrumentation. -/
def src_empty : Nat → List Relay := fun _ => []

/-- A `RelayList` state freshly refreshed at time 0. -/
def rl_st0 : RelayListState :=
  { relays := [], last_refresh := 0, fetch_count := 1 }

/-! Helper lemmas. -/

/-- The retry loop issues at most as many `new_circuit` calls as it has
attempts of fuel. -/
theorem impl_attempts_le (c : Controller) (path : List String) :
    ∀ n i, (impl_attempts c path i n).2 ≤ n := by
  intro n
  induction n with
  | zero => intro i; simp [impl_attempts]
  | succ n ih =>
    intro i
    simp only [impl_attempts]
    cases h : c.new_circuit i path with
    | ok cid => simp
    | error e =>
      simpa using Nat.succ_le_succ (ih (i + 1))

/-- When every remaining attempt fails with a transient fault, the retry
loop returns the `none` sentinel after consuming all its fuel. -/
theorem impl_attempts_all_fail (c : Controller) (path : List String) :
    ∀ n i, (∀ j, j < n → ∃ e, c.new_circuit (i + j) path = .error e) →
      impl_attempts c path i n = (none, n) := by
  intro n
  induction n with
  | zero => intro i _; simp [impl_attempts]
  | succ n ih =>
    intro i h
    obtain ⟨e, he⟩ := h 0 (Nat.succ_pos n)
    rw [Nat.add_zero] at he
    have hrec := ih (i + 1) (fun j hj => by
      have := h (j + 1) (Nat.succ_lt_succ hj)
      simpa [Nat.add_assoc, Nat.add_comm 1 j] using this)
    simp [impl_attempts, he, hrec]

/-- The `exits_can_exit_to` accumulation loop is the filter by the
per-relay keep decision. -/
theorem exits_loop_eq_filter (c : MdController) (port : Nat) :
    ∀ l : List Relay, exits_loop c port l = l.filter (fun r => exit_keep c port r) := by
  intro l
  induction l with
  | nil => rfl
  | cons r rest ih =>
    by_cases h : exit_keep c port r <;> simp [exits_loop, h, ih]

/-! Claim theorems. -/

/-- Claim C1: on a successful protocol-level construction call the new
circuit id should be recorded in `built_circuits` and returned.  Evaluated
at a concrete success (`new_circuit` returns "64" on the first attempt,
live-set initially empty): the id is returned, but the returned live-set
is still empty — no code path of `_build_circuit_impl` adds the id, so
the recording half of the claim fails on the code. -/
theorem claim_C1_build_success_id_not_recorded :
    build_circuit_impl ctrl_ok64 ["A"] ∅ = .ok (some "64", ∅, 1)
    ∧ "64" ∉ (∅ : Finset String) := by
  refine ⟨rfl, ?_⟩
  simp

/-- Claim C2: with `k` empty slots and fewer than `k` non-blacklisted
candidates, `GapsCircuitBuilder.build_circuit` should log a warning and
return the no-circuit sentinel without raising.  Evaluated at the path
spec `[None]` over an empty relay snapshot (0 candidates < 1 empty slot):
the failure branch rebuilds the path as
`','.join([r.nickname if r else None for r in path])`, and joining a list
that contains `None` raises `TypeError` before the warning is logged. -/
theorem claim_C2_shortfall_raises_type_error :
    gaps_build_circuit gaps_env_empty 9 ∅ [none] = some (.error .typeError) := by
  rfl

/-- Claim C3: a successfully filled path should have `m + k` entries with
no fingerprint appearing twice, pinned or filled.  Evaluated at the path
spec `["A", "A"]` (the same relay pinned in both slots, snapshot of three
relays): the fill succeeds and produces the path `["A", "A"]`, so a
fingerprint appears twice, contradicting the claim (and the source's own
docstring "A relay will not be in a circuit twice"). -/
theorem claim_C3_duplicate_pinned_path :
    gaps_build_path gaps_env_abc 20 [some "A", some "A"] = some (.ok (some ["A", "A"]))
    ∧ ¬ (["A", "A"] : List String).Nodup := by
  refine ⟨rfl, ?_⟩
  decide

/-- Claim C4: a `Destination` built from a URL lacking a path should apply
the configured default path at construction; `port()` defaults to 80/443
by scheme.  The port half holds (443 for path-bearing https URLs without
an explicit port, 80 for http, and the explicit port when present), but
construction from a path-less URL evaluates
`parts = u[0:2] + default_path + u[2:]`, concatenating a tuple with a
`str`, which raises `TypeError`: the default path is never applied. -/
theorem claim_C4_default_path_type_error :
    destination_init url_nopath "/f" 1 = .error .typeError
    ∧ destination_port { url := url_withpath, max_dl := 1 } = .ok 443
    ∧ destination_port { url := { url_withpath with scheme := "http" }, max_dl := 1 } = .ok 80
    ∧ destination_port { url := { url_withpath with port := some 8080 }, max_dl := 1 }
        = .ok 8080 := by
  exact ⟨rfl, rfl, rfl, rfl⟩

/-- Claim C5: a destination with no buildable circuit — including an empty
candidate exit set — should be dropped with a warning and the sweep
should continue without raising.  Second conjunct: the build-fails-three-
times case is indeed dropped and the sweep finishes cleanly.  First
conjunct: with an empty candidate exit set the sweep evaluates
`rng.choice(exits)` on an empty sequence and raises `IndexError`,
aborting the whole sweep before the second destination is examined. -/
theorem claim_C5_empty_exit_set_raises :
    perform_usability_test o_sweep_noexits [dest1, dest2] = .error .indexError
    ∧ perform_usability_test o_sweep_nobuild [dest1] = .ok ([], []) := by
  exact ⟨rfl, rfl⟩

/-- Claim C6: every successfully built throwaway test circuit should be
closed after the usability check, usable or not.  With collaborators whose
first build yields circuit "c1" (first conjunct), a destination whose
check reports NOT usable is dropped via `continue`, which skips
`close_circuit`: no circuit id is ever passed to `close_circuit` (second
conjunct), while the usable branch does close it (third conjunct). -/
theorem claim_C6_unusable_circuit_not_closed :
    try_build o_sweep_unusable [exitX] 0 3 = .ok (some "c1", 1)
    ∧ perform_usability_test o_sweep_unusable [dest1] = .ok ([], [])
    ∧ perform_usability_test o_sweep_usable [dest1] = .ok ([dest1], ["c1"]) := by
  exact ⟨rfl, rfl, rfl⟩

/-- Claim C7, counterexample: `closeCircuit` is claimed to remove the id
from the live-set in every case.  With a healthy controller whose circuit
table does not contain "9" and a live-set `{"9"}`, the call leaves the
live-set unchanged ("9" is still a member): the `discard` sits inside the
`if c.get_circuit(...)` block and is skipped when the circuit is gone. -/
theorem claim_C7_counterexample :
    close_circuit ctrl_fail {"9"} "9" = {"9"}
    ∧ ("9" : String) ∈ close_circuit ctrl_fail {"9"} "9" := by
  refine ⟨rfl, ?_⟩
  decide

/-- Claim C7, amended: `closeCircuit` never raises (an invalid-argument
fault from the underlying close is swallowed), and it removes the id from
the live-set exactly when the session is healthy and the session still
reports the circuit; when the circuit is already gone, or the session is
unhealthy, the live-set is unchanged. -/
theorem claim_C7_amended_removal (c : Controller) (st : Finset String) (cid : String) :
    (c.ok = true → cid ∈ c.circuits → close_circuit c st cid = st.erase cid)
    ∧ (c.ok = true → cid ∉ c.circuits → close_circuit c st cid = st)
    ∧ (c.ok = false → close_circuit c st cid = st) := by
  refine ⟨?_, ?_, ?_⟩
  · intro hok hmem
    simp only [close_circuit, hok]
    simp [hmem]
    cases c.close_result cid <;> rfl
  · intro hok hmem
    simp [close_circuit, hok, hmem]
  · intro hok
    simp [close_circuit, hok]

/-- Claim C7, witness for the amended theorem: a healthy controller still
reporting circuit "9" leads to its removal from the live-set. -/
theorem claim_C7_amended_removal_witness :
    close_circuit ctrl_has9 {"9"} "9" = ({"9"} : Finset String).erase "9" :=
  (claim_C7_amended_removal ctrl_has9 {"9"} "9").1 rfl (by decide)

/-- Claim C8: for every valid-length path (healthy session), the
construction routine issues at most 3 `new_circuit` calls, and when all 3
attempts fail with transient protocol faults it returns the no-circuit
sentinel without raising and with the live-set unchanged. -/
theorem claim_C8_retry_bound (c : Controller) (path : List String) (st : Finset String)
    (hlen : valid_circuit_length path.length = true) (hok : c.ok = true) :
    (∀ r, build_circuit_impl c path st = .ok r → r.2.2 ≤ 3)
    ∧ ((∀ i, i < 3 → ∃ e, c.new_circuit i path = .error e) →
        build_circuit_impl c path st = .ok (none, st, 3)) := by
  constructor
  · intro r hr
    simp only [build_circuit_impl, hlen, hok] at hr
    injection hr with hr
    subst hr
    exact impl_attempts_le c path 3 0
  · intro hfail
    have h3 := impl_attempts_all_fail c path 3 0 (fun j hj => by simpa using hfail j hj)
    simp [build_circuit_impl, hlen, hok, h3]

/-- Claim C8, witness: a controller timing out on every attempt leads, for
the one-hop path `["A"]`, to the sentinel with 3 attempts and an unchanged
(empty) live-set. -/
theorem claim_C8_retry_bound_witness :
    build_circuit_impl ctrl_fail ["A"] ∅ = .ok (none, ∅, 3) :=
  (claim_C8_retry_bound ctrl_fail ["A"] ∅ rfl rfl).2
    (fun _ _ => ⟨.timeout, rfl⟩)

/-- Claim C9, counterexample: `exitsCanExitTo` is claimed to keep exactly
the Exit-flagged relays whose policy permits egress to the port FOR THE
RESOLVED HOST.  With a relay whose policy permits port 443 when asked
with no address but denies it for every concrete address, the source
keeps the relay (it calls `can_exit_to(port=port)` with no address) while
the claimed host-aware computation drops it, so the two disagree. -/
theorem claim_C9_counterexample :
    Except.map (List.map Relay.fingerprint)
        (exits_can_exit_to mdc_empty isIP_lit res_empty [exitY] "1.2.3.4" 443) = .ok ["Y"]
    ∧ Except.map (List.map Relay.fingerprint)
        (exits_can_exit_to_claim mdc_empty isIP_lit res_empty [exitY] "1.2.3.4" 443) = .ok []
    ∧ exits_can_exit_to mdc_empty isIP_lit res_empty [exitY] "1.2.3.4" 443
        ≠ exits_can_exit_to_claim mdc_empty isIP_lit res_empty [exitY] "1.2.3.4" 443 := by
  refine ⟨rfl, rfl, ?_⟩
  intro h
  have h2 := congrArg (Except.map (List.map Relay.fingerprint)) h
  rw [show Except.map (List.map Relay.fingerprint)
        (exits_can_exit_to mdc_empty isIP_lit res_empty [exitY] "1.2.3.4" 443)
        = .ok ["Y"] from rfl,
      show Except.map (List.map Relay.fingerprint)
        (exits_can_exit_to_claim mdc_empty isIP_lit res_empty [exitY] "1.2.3.4" 443)
        = .ok [] from rfl] at h2
  simp at h2

/-- Claim C9, amended: whenever host resolution succeeds,
`exits_can_exit_to` returns exactly the Exit-flagged relays of the
snapshot kept by the per-relay policy decision for the PORT ALONE (the
resolved host is computed and validated but not passed to the policy
matcher); a relay whose microdescriptor cannot be fetched is excluded,
and a policy-evaluation failure counts as cannot-exit. -/
theorem claim_C9_amended_port_only (c : MdController) (isIP : String → Bool)
    (res : String → List String) (snapshot : List Relay) (host : String) (port : Nat)
    (a : String) (hres : resolve_host isIP res host = .ok a) :
    exits_can_exit_to c isIP res snapshot host port
      = .ok ((snapshot.filter (fun r => Flag.Exit ∈ r.flags)).filter
          (fun r => exit_keep c port r)) := by
  have h1 : exits_can_exit_to c isIP res snapshot host port
      = .ok (exits_loop c port (snapshot.filter (fun r => Flag.Exit ∈ r.flags))) := by
    unfold exits_can_exit_to
    rw [hres]
    rfl
  rw [h1, exits_loop_eq_filter]

/-- Claim C9, witness for the amended theorem, at the counterexample's
snapshot: the relay is kept because its policy permits the port when
asked without an address. -/
theorem claim_C9_amended_port_only_witness :
    exits_can_exit_to mdc_empty isIP_lit res_empty [exitY] "1.2.3.4" 443
      = .ok (([exitY].filter (fun r => Flag.Exit ∈ r.flags)).filter
          (fun r => exit_keep mdc_empty 443 r)) :=
  claim_C9_amended_port_only mdc_empty isIP_lit res_empty [exitY] "1.2.3.4" 443
    "1.2.3.4" rfl

/-- Claim C10: a `relays()` read while the snapshot's age is strictly below
`REFRESH_INTERVAL` returns the cached snapshot with the state (and thus
the fetch counter) unchanged; a read once the age reaches the interval
performs exactly one re-fetch (fetch counter +1) and returns the freshly
fetched snapshot. -/
theorem claim_C10_cache_refresh (src : Nat → List Relay) (now : Nat) (st : RelayListState) :
    (now < st.last_refresh + REFRESH_INTERVAL → rl_relays src now st = (st.relays, st))
    ∧ (st.last_refresh + REFRESH_INTERVAL ≤ now →
        rl_relays src now st = (src st.fetch_count, rl_refresh src now st)
        ∧ (rl_relays src now st).2.fetch_count = st.fetch_count + 1) := by
  constructor
  · intro h
    rw [rl_relays, if_neg (by omega)]
  · intro h
    rw [rl_relays, if_pos h]
    exact ⟨rfl, rfl⟩

/-- Claim C10, witness: for a state refreshed at time 0, a read at time 100
returns the cache unchanged, and a read at time 300 bumps the fetch
counter by one. -/
theorem claim_C10_cache_refresh_witness :
    rl_relays src_empty 100 rl_st0 = (rl_st0.relays, rl_st0)
    ∧ (rl_relays src_empty 300 rl_st0).2.fetch_count = rl_st0.fetch_count + 1 :=
  ⟨(claim_C10_cache_refresh src_empty 100 rl_st0).1 (by decide),
   ((claim_C10_cache_refresh src_empty 300 rl_st0).2 (by decide)).2⟩

end Sbws
